import Mathlib

/-!
Verification of the statistical core of the multiresolution-cosmology
repository: the correction model (src/utils/corrections.py,
src/config/corrections.py), the tension statistics
(src/joint_lambda_cdm_fit.py, src/utils/corrections.py), the cross-survey
consistency classifier, the resolution schedule, and the cosmology
conversions (src/utils/cosmology.py).

Python floats are modelled by real numbers; fallible Python code (raising
exceptions) is modelled with Except over an explicit exception type.
-/

/-- Exception classes raised by the Python code: the builtin ValueError and
ZeroDivisionError, and the ValidationError / ParameterValidationError classes
of src/utils/validation.py. -/
inductive PyError where
  | valueError
  | zeroDivisionError
  | validationError
  | parameterValidationError
deriving DecidableEq

-- ===========================================================================
-- Constants (src/config/constants.py, src/config/corrections.py)
-- ===========================================================================

/-- src/config/constants.py: SPEED_OF_LIGHT_KM_S = 299792.458 -/
def SPEED_OF_LIGHT_KM_S : ℝ := 299792.458

/-- src/config/corrections.py line 24: UNIVERSAL_BASELINE = 0.0200 -/
def UNIVERSAL_BASELINE : ℝ := 0.0200

/-- src/config/corrections.py line 28: REDSHIFT_SCALING_EXPONENT = -0.5 -/
def REDSHIFT_SCALING_EXPONENT : ℝ := -0.5

-- ===========================================================================
-- Correction model (src/utils/corrections.py, src/config/corrections.py)
-- ===========================================================================

/-- src/config/corrections.py lines 168-183: calculate_redshift_scaling_factor
returns (1.0 + z) ** exponent. The Python default for exponent is
REDSHIFT_SCALING_EXPONENT; the default is passed explicitly here. -/
noncomputable def calculate_redshift_scaling_factor (z exponent : ℝ) : ℝ :=
  (1 + z) ^ exponent

/-- src/utils/corrections.py lines 40-67: calculate_redshift_dependent_correction
computes z_factor = (1.0 + z_eff) ** exponent and returns baseline * z_factor.
Defaults (baseline = UNIVERSAL_BASELINE, exponent = REDSHIFT_SCALING_EXPONENT)
are passed explicitly here. -/
noncomputable def calculate_redshift_dependent_correction
    (z_eff baseline exponent : ℝ) : ℝ :=
  baseline * (1 + z_eff) ^ exponent

/-- The same function viewed with its Python exception behaviour: the body
performs no validation at all; the float power (1.0 + z_eff) ** exponent
raises ZeroDivisionError exactly when the base is 0.0 and the exponent is
negative (for a negative base and non-integral exponent Python produces a
complex number, which is outside this real-valued model and outside every
claim, all of which concern z >= -1). -/
noncomputable def calculate_redshift_dependent_correction_checked
    (z_eff baseline exponent : ℝ) : Except PyError ℝ :=
  if 1 + z_eff = 0 ∧ exponent < 0 then Except.error PyError.zeroDivisionError
  else Except.ok (baseline * (1 + z_eff) ^ exponent)

/-- Arithmetic mean as computed by np.mean: sum divided by length. -/
noncomputable def listMean (l : List ℝ) : ℝ := l.sum / l.length

/-- Result record of fit_baseline_from_bins. -/
structure FitResult where
  baseline : ℝ
  baseline_std : ℝ
  rms_residual : ℝ
  n_bins : ℕ

/-- src/utils/corrections.py lines 112-155: fit_baseline_from_bins.
z_factors = calculate_redshift_scaling_factor(z); baselines = corrections /
z_factors (elementwise); baseline = np.mean(baselines); baseline_std =
np.std(baselines) (population std); predicted = mean * z_factors; residuals =
corrections - predicted; rms = sqrt(np.mean(residuals**2)). Elementwise numpy
division of equal-length arrays is modelled by zip. -/
noncomputable def fit_baseline_from_bins
    (z_effective_values corrections : List ℝ) : FitResult :=
  let z_factors := z_effective_values.map
    (fun z => calculate_redshift_scaling_factor z REDSHIFT_SCALING_EXPONENT)
  let baselines := (corrections.zip z_factors).map (fun p => p.1 / p.2)
  let baseline_mean := listMean baselines
  let baseline_std :=
    Real.sqrt (listMean (baselines.map (fun b => (b - baseline_mean) ^ 2)))
  let predicted := z_factors.map (fun w => baseline_mean * w)
  let residuals := (corrections.zip predicted).map (fun p => p.1 - p.2)
  let rms := Real.sqrt (listMean (residuals.map (fun r => r ^ 2)))
  ⟨baseline_mean, baseline_std, rms, z_effective_values.length⟩

-- ===========================================================================
-- Tension statistics (src/utils/corrections.py, src/joint_lambda_cdm_fit.py)
-- ===========================================================================

/-- src/utils/corrections.py lines 162-185: calculate_tension_sigma returns
abs(value1 - value2) / np.sqrt(sigma1**2 + sigma2**2). No input validation is
performed; the numpy float division never raises (at a zero denominator numpy
returns a non-finite float with a warning, a case outside every claim's
hypotheses). -/
noncomputable def calculate_tension_sigma (value1 sigma1 value2 sigma2 : ℝ) : ℝ :=
  |value1 - value2| / Real.sqrt (sigma1 ^ 2 + sigma2 ^ 2)

/-- src/joint_lambda_cdm_fit.py lines 62-79: weighted_mean. weights = [1/s**2
for s in sigmas]; total_weight = sum(weights); mean = sum(v*w for v, w in
zip(values, weights)) / total_weight; sigma = 1 / np.sqrt(total_weight). -/
noncomputable def weighted_mean (values sigmas : List ℝ) : ℝ × ℝ :=
  let weights := sigmas.map (fun s => 1 / s ^ 2)
  let total_weight := weights.sum
  let mean := ((values.zip weights).map (fun p => p.1 * p.2)).sum / total_weight
  let sigma := 1 / Real.sqrt total_weight
  (mean, sigma)

/-- weighted_mean with its Python exception behaviour: the weights list
comprehension raises ZeroDivisionError at the first sigma equal to 0 (Python
float division 1/0.0 raises); otherwise the mean division raises
ZeroDivisionError when total_weight is 0 (which happens exactly for an empty
sigmas list). The final 1/np.sqrt(total_weight) is numpy division and never
raises. -/
noncomputable def weighted_mean_checked (values sigmas : List ℝ) :
    Except PyError (ℝ × ℝ) :=
  if (0 : ℝ) ∈ sigmas then Except.error PyError.zeroDivisionError
  else if (sigmas.map (fun s => 1 / s ^ 2)).sum = 0 then
    Except.error PyError.zeroDivisionError
  else Except.ok (weighted_mean values sigmas)

/-- src/joint_lambda_cdm_fit.py lines 82-84: calculate_chi_squared returns
((measured - predicted) / sigma)**2. -/
noncomputable def calculate_chi_squared (measured predicted sigma : ℝ) : ℝ :=
  ((measured - predicted) / sigma) ^ 2

/-- src/joint_lambda_cdm_fit.py lines 119-127 (the per-parameter consistency
check inside joint_fit_lambda_cdm): combined mean from weighted_mean, chi2 =
sum of calculate_chi_squared(v, combined, s) over the measurements, dof =
len(values) - 1, then the unguarded Python division chi2/dof, which raises
ZeroDivisionError when dof = 0 (a single measurement). -/
noncomputable def joint_fit_consistency_check (values sigmas : List ℝ) :
    Except PyError ℝ :=
  let combined := weighted_mean values sigmas
  let chi2 := ((values.zip sigmas).map
    (fun p => calculate_chi_squared p.1 combined.1 p.2)).sum
  let dof : ℤ := (values.length : ℤ) - 1
  if dof = 0 then Except.error PyError.zeroDivisionError
  else Except.ok (chi2 / (dof : ℝ))

-- ===========================================================================
-- List helper lemmas
-- ===========================================================================

lemma map_const_eq_replicate {α β : Type} (l : List α) (b : β) :
    l.map (fun _ => b) = List.replicate l.length b := by
  induction l with
  | nil => simp
  | cons a t ih => simp [List.replicate_succ, ih]

lemma sum_replicate_real (n : ℕ) (a : ℝ) :
    (List.replicate n a).sum = n * a := by
  induction n with
  | zero => simp
  | succ k ih => simp [List.replicate_succ, ih]; ring

lemma zip_map_same {α β γ : Type} (f : α → β) (g : α → γ) (l : List α) :
    (l.map f).zip (l.map g) = l.map (fun a => (f a, g a)) := by
  induction l with
  | nil => simp
  | cons a t ih => simp [ih]

lemma zip_map_snd {α β γ : Type} (l1 : List α) (l2 : List β) (g : β → γ) :
    l1.zip (l2.map g) = (l1.zip l2).map (fun p => (p.1, g p.2)) := by
  induction l1 generalizing l2 with
  | nil => simp
  | cons a t ih =>
    cases l2 with
    | nil => simp
    | cons b t2 => simp [ih]

lemma zip_replicate_same {α β : Type} (n : ℕ) (a : α) (b : β) :
    (List.replicate n a).zip (List.replicate n b) = List.replicate n (a, b) := by
  induction n with
  | zero => simp
  | succ k ih => simp [List.replicate_succ, ih]

lemma listMean_replicate (n : ℕ) (hn : n ≠ 0) (a : ℝ) :
    listMean (List.replicate n a) = a := by
  have hn' : (n : ℝ) ≠ 0 := Nat.cast_ne_zero.mpr hn
  simp [listMean, sum_replicate_real]
  field_simp

-- ===========================================================================
-- Cross-survey consistency (src/utils/corrections.py lines 277-320)
-- ===========================================================================

/-- Result record of check_cross_survey_consistency, minus the echoed
per-survey baselines dictionary. -/
structure ConsistencyResult where
  mean_baseline : ℝ
  std_baseline : ℝ
  max_difference : ℝ
  consistent : Bool
  status : String

/-- src/utils/corrections.py lines 277-320: check_cross_survey_consistency.
The per-survey dictionary is modelled by the list of extracted baseline
values (the missing-key ValueError path concerns dictionary shape only).
mean = np.mean, std = np.std (population), max_difference = np.max of the
absolute deviations (all non-negative, so a fold seeded with 0 agrees with
np.max on non-empty input); is_excellent = std < 0.003, is_good = std < 0.005,
status picks EXCELLENT / GOOD / MARGINAL, consistent = is_excellent or
is_good. -/
noncomputable def check_cross_survey_consistency (baseline_values : List ℝ) :
    ConsistencyResult :=
  let mean_baseline := listMean baseline_values
  let std_baseline :=
    Real.sqrt (listMean (baseline_values.map (fun b => (b - mean_baseline) ^ 2)))
  let max_diff := (baseline_values.map (fun b => |b - mean_baseline|)).foldr max 0
  let is_excellent := std_baseline < 0.003
  let is_good := std_baseline < 0.005
  let status := if is_excellent then "EXCELLENT"
    else if is_good then "GOOD" else "MARGINAL"
  ⟨mean_baseline, std_baseline, max_diff,
    if is_excellent ∨ is_good then true else false, status⟩

-- ===========================================================================
-- Resolution schedule (src/utils/corrections.py lines 327-368)
-- ===========================================================================

/-- Result record of apply_resolution_schedule, minus the echoed schedule. -/
structure ScheduleResult where
  values_by_resolution : List ℝ
  corrections_by_resolution : List ℝ
  final_value : ℝ
  total_correction : ℝ

/-- The loop body of apply_resolution_schedule: walks the schedule keeping the
running value, producing the appended values list, the appended corrections
list, and the final value. The Python dict of per-resolution corrections is
modelled as an association list; a resolution absent from the table
contributes a correction of 0.0. -/
noncomputable def apply_resolution_schedule_go (table : List (ℤ × ℝ)) (current : ℝ) :
    List ℤ → List ℝ × List ℝ × ℝ
  | [] => ([], [], current)
  | r :: rest =>
    let c := (table.lookup r).getD 0
    let next := current + c
    let tail := apply_resolution_schedule_go table next rest
    (next :: tail.1, c :: tail.2.1, tail.2.2)

/-- src/utils/corrections.py lines 327-368: apply_resolution_schedule. Starts
values = [initial_value], corrections = [0.0], then for each resolution in the
schedule adds the table correction (or 0.0 when absent) to the running value,
appending to both lists; total_correction = final - initial. -/
noncomputable def apply_resolution_schedule (initial_value : ℝ)
    (resolution_schedule : List ℤ) (correction_per_resolution : List (ℤ × ℝ)) :
    ScheduleResult :=
  let g := apply_resolution_schedule_go correction_per_resolution initial_value
    resolution_schedule
  ⟨initial_value :: g.1, 0 :: g.2.1, g.2.2, g.2.2 - initial_value⟩

-- ===========================================================================
-- Cosmology conversions (src/utils/cosmology.py)
-- ===========================================================================

/-- src/utils/cosmology.py lines 28-42: calculate_hubble_distance returns
SPEED_OF_LIGHT_KM_S / h0. -/
noncomputable def calculate_hubble_distance (h0 : ℝ) : ℝ :=
  SPEED_OF_LIGHT_KM_S / h0

/-- src/utils/cosmology.py lines 45-89: calculate_angular_diameter_distance.
omega_lambda defaults to 1 - omega_m when not supplied (None); it raises
ValueError when abs(omega_m + omega_lambda - 1.0) > 0.01, and otherwise
returns d_h * z / (1 + z) * (1 + 0.5 * omega_m * z). There is no other
validation in this function. -/
noncomputable def calculate_angular_diameter_distance
    (z h0 omega_m : ℝ) (omega_lambda : Option ℝ) : Except PyError ℝ :=
  let ol := omega_lambda.getD (1 - omega_m)
  if 0.01 < |omega_m + ol - 1| then Except.error PyError.valueError
  else Except.ok (calculate_hubble_distance h0 * z / (1 + z)
    * (1 + 0.5 * omega_m * z))

/-- src/utils/cosmology.py lines 364-401: validate_cosmology_parameters,
taken on the three required dictionary entries (the missing-key path concerns
dictionary shape only). Raises ValueError unless 40 < h0 < 100,
0 < omega_m < 1, 0 < omega_lambda < 1, and (when flat_only) the flatness
constraint abs(omega_m + omega_lambda - 1) <= 0.01. -/
noncomputable def validate_cosmology_parameters
    (h0 omega_m omega_lambda : ℝ) (flat_only : Bool) : Except PyError Unit :=
  if ¬ (40 < h0 ∧ h0 < 100) then Except.error PyError.valueError
  else if ¬ (0 < omega_m ∧ omega_m < 1) then Except.error PyError.valueError
  else if ¬ (0 < omega_lambda ∧ omega_lambda < 1) then
    Except.error PyError.valueError
  else if flat_only = true ∧ 0.01 < |omega_m + omega_lambda - 1| then
    Except.error PyError.valueError
  else Except.ok ()

/-- src/utils/cosmology.py lines 286-296: redshift_to_scale_factor returns
1.0 / (1.0 + z), with no validation. -/
noncomputable def redshift_to_scale_factor (z : ℝ) : ℝ := 1 / (1 + z)

/-- src/utils/cosmology.py lines 299-315: scale_factor_to_redshift raises
ValueError when a <= 0 or a > 1, and otherwise returns 1/a - 1. -/
noncomputable def scale_factor_to_redshift (a : ℝ) : Except PyError ℝ :=
  if a ≤ 0 ∨ 1 < a then Except.error PyError.valueError
  else Except.ok (1 / a - 1)

-- ===========================================================================
-- Shared lemmas about the correction formula
-- ===========================================================================

/-- For 1 + z > 0 the power-law correction A * (1+z)^(-0.5) is A / sqrt(1+z). -/
lemma correction_eq_div_sqrt (A z : ℝ) (h1 : 0 < 1 + z) :
    A * (1 + z) ^ REDSHIFT_SCALING_EXPONENT = A / Real.sqrt (1 + z) := by
  unfold REDSHIFT_SCALING_EXPONENT
  rw [show (-0.5 : ℝ) = -(1 / 2) by norm_num, Real.rpow_neg h1.le,
    ← Real.sqrt_eq_rpow, div_eq_mul_inv]

-- ===========================================================================
-- Claim C1
-- ===========================================================================

/-- Claim C1 counterexample: at baseline A = 0 the correction is 0 at every
redshift, so the correction at z1 = 0 is not greater than the correction at
z2 = 1 even though z1 < z2; the claimed strict monotonic decrease fails for
the baseline A = 0 (and reverses for negative A). -/
theorem c1_counterexample :
    ¬ (calculate_redshift_dependent_correction 1 0 REDSHIFT_SCALING_EXPONENT <
      calculate_redshift_dependent_correction 0 0 REDSHIFT_SCALING_EXPONENT) := by
  simp [calculate_redshift_dependent_correction]

/-- Claim C1 (amended): for every z >= 0 and every baseline A,
calculate_redshift_dependent_correction(z, A) with the default exponent -0.5
equals A / sqrt(1+z); and for every baseline A > 0 the correction is strictly
decreasing in z (for 0 <= z1 < z2 the correction at z2 is smaller than the
correction at z1). -/
theorem c1_correction_formula_and_monotone (A z1 z2 : ℝ) (hz1 : 0 ≤ z1) :
    calculate_redshift_dependent_correction z1 A REDSHIFT_SCALING_EXPONENT
      = A / Real.sqrt (1 + z1) ∧
    (0 < A → z1 < z2 →
      calculate_redshift_dependent_correction z2 A REDSHIFT_SCALING_EXPONENT <
        calculate_redshift_dependent_correction z1 A REDSHIFT_SCALING_EXPONENT) := by
  have h1 : (0 : ℝ) < 1 + z1 := by linarith
  constructor
  · exact correction_eq_div_sqrt A z1 h1
  · intro hA hlt
    have h2 : (0 : ℝ) < 1 + z2 := by linarith
    unfold calculate_redshift_dependent_correction
    rw [correction_eq_div_sqrt A z1 h1, correction_eq_div_sqrt A z2 h2]
    have hs1 : 0 < Real.sqrt (1 + z1) := Real.sqrt_pos.mpr h1
    have hs : Real.sqrt (1 + z1) < Real.sqrt (1 + z2) :=
      Real.sqrt_lt_sqrt h1.le (by linarith)
    exact div_lt_div_of_pos_left hA hs1 hs

/-- Witness for c1_correction_formula_and_monotone at A = 2, z1 = 0, z2 = 3. -/
theorem c1_witness :
    (0 : ℝ) ≤ 0 ∧ (0 : ℝ) < 2 ∧ (0 : ℝ) < 3 ∧
    (calculate_redshift_dependent_correction 0 2 REDSHIFT_SCALING_EXPONENT
      = 2 / Real.sqrt (1 + 0) ∧
    calculate_redshift_dependent_correction 3 2 REDSHIFT_SCALING_EXPONENT <
      calculate_redshift_dependent_correction 0 2 REDSHIFT_SCALING_EXPONENT) :=
  ⟨le_refl 0, by norm_num, by norm_num,
    (c1_correction_formula_and_monotone 2 0 3 (le_refl 0)).1,
    (c1_correction_formula_and_monotone 2 0 3 (le_refl 0)).2
      (by norm_num) (by norm_num)⟩

-- ===========================================================================
-- Claim C4
-- ===========================================================================

/-- Claim C4 counterexample: at z = -1 the code raises ZeroDivisionError from
the unguarded float power 0.0 ** (-0.5), which is a crash, not the
ValidationError / ParameterValidationError classes of
src/utils/validation.py; no validation is performed by
calculate_redshift_dependent_correction. -/
theorem c4_counterexample :
    calculate_redshift_dependent_correction_checked (-1) UNIVERSAL_BASELINE
      REDSHIFT_SCALING_EXPONENT = Except.error PyError.zeroDivisionError ∧
    PyError.zeroDivisionError ≠ PyError.validationError ∧
    PyError.zeroDivisionError ≠ PyError.parameterValidationError := by
  refine ⟨?_, by decide, by decide⟩
  unfold calculate_redshift_dependent_correction_checked REDSHIFT_SCALING_EXPONENT
  rw [if_pos (by norm_num)]

/-- Claim C4 (amended): the correction function performs no validation: for
every z > -1 it returns baseline * (1+z)^(-0.5) = baseline / sqrt(1+z)
normally, and at z = -1 it raises an unguarded ZeroDivisionError (a crash from
0.0 ** (-0.5)), not a validation error. -/
theorem c4_no_validation_and_crash_at_minus_one (z A : ℝ) (hz : -1 < z) :
    calculate_redshift_dependent_correction_checked z A REDSHIFT_SCALING_EXPONENT
      = Except.ok (A / Real.sqrt (1 + z)) ∧
    calculate_redshift_dependent_correction_checked (-1) A REDSHIFT_SCALING_EXPONENT
      = Except.error PyError.zeroDivisionError := by
  have h1 : (0 : ℝ) < 1 + z := by linarith
  constructor
  · unfold calculate_redshift_dependent_correction_checked
    rw [if_neg (by intro h; exact absurd h.1 (by positivity))]
    rw [correction_eq_div_sqrt A z h1]
  · unfold calculate_redshift_dependent_correction_checked REDSHIFT_SCALING_EXPONENT
    rw [if_pos (by norm_num)]

/-- Witness for c4_no_validation_and_crash_at_minus_one at z = 0, A = 3. -/
theorem c4_witness :
    (-1 : ℝ) < 0 ∧
    (calculate_redshift_dependent_correction_checked 0 3 REDSHIFT_SCALING_EXPONENT
      = Except.ok (3 / Real.sqrt (1 + 0)) ∧
    calculate_redshift_dependent_correction_checked (-1) 3 REDSHIFT_SCALING_EXPONENT
      = Except.error PyError.zeroDivisionError) :=
  ⟨by norm_num, c4_no_validation_and_crash_at_minus_one 0 3 (by norm_num)⟩

-- ===========================================================================
-- Claim C2
-- ===========================================================================

/-- Claim C2: calculate_tension_sigma equals the textbook tension formula and
vanishes on identical measurements; weighted_mean returns the inverse-variance
weighted mean Sum(v/s^2)/Sum(1/s^2) and combined sigma 1/sqrt(Sum(1/s^2));
consequently the weighted mean of N identical measurements (N >= 1, s > 0)
equals that value and the combined sigma equals s / sqrt(N). -/
theorem c2_tension_and_weighted_mean (v1 s1 v2 s2 v s : ℝ) (n : ℕ)
    (values sigmas : List ℝ) (hs : 0 < s) (hn : 1 ≤ n) :
    calculate_tension_sigma v1 s1 v2 s2
      = |v1 - v2| / Real.sqrt (s1 ^ 2 + s2 ^ 2) ∧
    calculate_tension_sigma v1 s1 v1 s1 = 0 ∧
    (weighted_mean values sigmas).1 =
      ((values.zip sigmas).map (fun p => p.1 / p.2 ^ 2)).sum /
        (sigmas.map (fun q => 1 / q ^ 2)).sum ∧
    (weighted_mean values sigmas).2 =
      1 / Real.sqrt ((sigmas.map (fun q => 1 / q ^ 2)).sum) ∧
    (weighted_mean (List.replicate n v) (List.replicate n s)).1 = v ∧
    (weighted_mean (List.replicate n v) (List.replicate n s)).2
      = s / Real.sqrt n := by
  have hsne : s ≠ 0 := ne_of_gt hs
  have hn' : (n : ℝ) ≠ 0 := Nat.cast_ne_zero.mpr (by omega)
  have hw : (1 : ℝ) / s ^ 2 ≠ 0 := by positivity
  refine ⟨rfl, ?_, ?_, rfl, ?_, ?_⟩
  · simp [calculate_tension_sigma]
  · have h : (values.zip (sigmas.map fun q => 1 / q ^ 2)).map (fun p => p.1 * p.2)
        = (values.zip sigmas).map (fun p => p.1 / p.2 ^ 2) := by
      rw [zip_map_snd, List.map_map]
      apply List.map_congr_left
      intro p _
      simp [div_eq_mul_inv]
    simp only [weighted_mean]
    rw [h]
  · simp only [weighted_mean, List.map_replicate, zip_replicate_same,
      sum_replicate_real]
    rw [mul_div_mul_left _ _ hn', mul_div_cancel_right₀ _ hw]
  · simp only [weighted_mean, List.map_replicate, sum_replicate_real]
    rw [show (n : ℝ) * (1 / s ^ 2) = (Real.sqrt n / s) ^ 2 by
        rw [div_pow, Real.sq_sqrt (Nat.cast_nonneg n)]; ring,
      Real.sqrt_sq (by positivity), one_div_div]

/-- Witness for c2_tension_and_weighted_mean at v1 = 0, s1 = 1, v2 = 3,
s2 = 1, v = 5, s = 2, n = 4, empty lists. -/
theorem c2_witness :
    (0 : ℝ) < 2 ∧ 1 ≤ 4 ∧
    (calculate_tension_sigma 0 1 3 1
      = |(0 : ℝ) - 3| / Real.sqrt (1 ^ 2 + 1 ^ 2) ∧
    calculate_tension_sigma 0 1 0 1 = 0 ∧
    (weighted_mean ([] : List ℝ) ([] : List ℝ)).1 =
      ((([] : List ℝ).zip ([] : List ℝ)).map (fun p => p.1 / p.2 ^ 2)).sum /
        ((([] : List ℝ)).map (fun q => 1 / q ^ 2)).sum ∧
    (weighted_mean ([] : List ℝ) ([] : List ℝ)).2 =
      1 / Real.sqrt (((([] : List ℝ)).map (fun q => 1 / q ^ 2)).sum) ∧
    (weighted_mean (List.replicate 4 (5 : ℝ)) (List.replicate 4 (2 : ℝ))).1 = 5 ∧
    (weighted_mean (List.replicate 4 (5 : ℝ)) (List.replicate 4 (2 : ℝ))).2
      = 2 / Real.sqrt (4 : ℕ)) :=
  ⟨by norm_num, by norm_num,
    c2_tension_and_weighted_mean 0 1 3 1 5 2 4 [] [] (by norm_num) (by norm_num)⟩

-- ===========================================================================
-- Claim C3
-- ===========================================================================

/-- Claim C3: for every non-empty list of redshifts z >= 0 and every baseline
A, fitting fit_baseline_from_bins on the corrections generated by
calculate_redshift_dependent_correction at baseline A recovers baseline = A
exactly, with baseline_std = 0 and rms_residual = 0 (exact real arithmetic:
the floating-point tolerance of the claim is the zero of this model). -/
theorem c3_fit_baseline_roundtrip (z_values : List ℝ) (A : ℝ)
    (hne : z_values ≠ []) (hz : ∀ z ∈ z_values, 0 ≤ z) :
    (fit_baseline_from_bins z_values (z_values.map
        (fun z => calculate_redshift_dependent_correction z A
          REDSHIFT_SCALING_EXPONENT))).baseline = A ∧
    (fit_baseline_from_bins z_values (z_values.map
        (fun z => calculate_redshift_dependent_correction z A
          REDSHIFT_SCALING_EXPONENT))).baseline_std = 0 ∧
    (fit_baseline_from_bins z_values (z_values.map
        (fun z => calculate_redshift_dependent_correction z A
          REDSHIFT_SCALING_EXPONENT))).rms_residual = 0 := by
  have hlen : z_values.length ≠ 0 := by
    simpa [List.length_eq_zero] using hne
  have hf : ∀ z ∈ z_values,
      ((1 + z) ^ REDSHIFT_SCALING_EXPONENT : ℝ) ≠ 0 := by
    intro z hzm
    have h1 : (0 : ℝ) < 1 + z := by have := hz z hzm; linarith
    exact ne_of_gt (Real.rpow_pos_of_pos h1 _)
  have e1 : ((z_values.map fun z =>
        calculate_redshift_dependent_correction z A REDSHIFT_SCALING_EXPONENT).zip
          (z_values.map fun z =>
            calculate_redshift_scaling_factor z REDSHIFT_SCALING_EXPONENT)).map
        (fun p => p.1 / p.2)
      = List.replicate z_values.length A := by
    rw [zip_map_same, List.map_map]
    have e1a : z_values.map ((fun p : ℝ × ℝ => p.1 / p.2) ∘ fun z =>
        (calculate_redshift_dependent_correction z A REDSHIFT_SCALING_EXPONENT,
         calculate_redshift_scaling_factor z REDSHIFT_SCALING_EXPONENT))
        = z_values.map (fun _ => A) := by
      apply List.map_congr_left
      intro z hzm
      simp only [Function.comp_apply, calculate_redshift_dependent_correction,
        calculate_redshift_scaling_factor]
      rw [mul_div_assoc, div_self (hf z hzm), mul_one]
    rw [e1a, map_const_eq_replicate]
  have hpred : (z_values.map fun z =>
        calculate_redshift_scaling_factor z REDSHIFT_SCALING_EXPONENT).map
          (fun w => A * w)
      = z_values.map fun z =>
          calculate_redshift_dependent_correction z A REDSHIFT_SCALING_EXPONENT := by
    rw [List.map_map]
    rfl
  have hres : ((z_values.map fun z =>
        calculate_redshift_dependent_correction z A REDSHIFT_SCALING_EXPONENT).zip
          (z_values.map fun z =>
            calculate_redshift_dependent_correction z A
              REDSHIFT_SCALING_EXPONENT)).map (fun p => p.1 - p.2)
      = List.replicate z_values.length (0 : ℝ) := by
    rw [zip_map_same, List.map_map]
    have e2 : z_values.map ((fun p : ℝ × ℝ => p.1 - p.2) ∘ fun z =>
        (calculate_redshift_dependent_correction z A REDSHIFT_SCALING_EXPONENT,
         calculate_redshift_dependent_correction z A REDSHIFT_SCALING_EXPONENT))
        = z_values.map (fun _ => (0 : ℝ)) := by
      apply List.map_congr_left
      intro z _
      simp
    rw [e2, map_const_eq_replicate]
  simp only [fit_baseline_from_bins]
  rw [e1, listMean_replicate _ hlen]
  refine ⟨rfl, ?_, ?_⟩
  · rw [List.map_replicate]
    simp [listMean, sum_replicate_real]
  · rw [hpred, hres, List.map_replicate]
    simp [listMean, sum_replicate_real]

/-- Witness for c3_fit_baseline_roundtrip at z_values = [0, 3], A = 2. -/
theorem c3_witness :
    ([(0 : ℝ), 3] ≠ ([] : List ℝ)) ∧ (∀ z ∈ [(0 : ℝ), 3], 0 ≤ z) ∧
    ((fit_baseline_from_bins [(0 : ℝ), 3] ([(0 : ℝ), 3].map
        (fun z => calculate_redshift_dependent_correction z 2
          REDSHIFT_SCALING_EXPONENT))).baseline = 2 ∧
    (fit_baseline_from_bins [(0 : ℝ), 3] ([(0 : ℝ), 3].map
        (fun z => calculate_redshift_dependent_correction z 2
          REDSHIFT_SCALING_EXPONENT))).baseline_std = 0 ∧
    (fit_baseline_from_bins [(0 : ℝ), 3] ([(0 : ℝ), 3].map
        (fun z => calculate_redshift_dependent_correction z 2
          REDSHIFT_SCALING_EXPONENT))).rms_residual = 0) :=
  ⟨by simp, by intro z hzm; simp at hzm; rcases hzm with rfl | rfl <;> norm_num,
    c3_fit_baseline_roundtrip [(0 : ℝ), 3] 2 (by simp)
      (by intro z hzm; simp at hzm; rcases hzm with rfl | rfl <;> norm_num)⟩

-- ===========================================================================
-- Claim C5
-- ===========================================================================

/-- Claim C5 counterexample: with the non-positive uncertainty sigma1 = -1 in
the inputs, calculate_tension_sigma returns the finite number 2 * sqrt 2 (the
formula squares the sigmas, so the sign is silently ignored) and weighted_mean
returns its usual value; neither function raises any error, contradicting the
claimed sigma > 0 validation. -/
theorem c5_counterexample :
    weighted_mean_checked [(0.78 : ℝ), 0.83] [(-1 : ℝ), 1]
      = Except.ok (weighted_mean [(0.78 : ℝ), 0.83] [(-1 : ℝ), 1]) ∧
    calculate_tension_sigma 0 (-1) 4 1 = 2 * Real.sqrt 2 := by
  constructor
  · unfold weighted_mean_checked
    rw [if_neg (by norm_num), if_neg (by norm_num)]
  · unfold calculate_tension_sigma
    have h2 : (0 : ℝ) < Real.sqrt 2 := Real.sqrt_pos.mpr (by norm_num)
    rw [show |(0 : ℝ) - 4| = 4 by norm_num, show ((-1 : ℝ)) ^ 2 + 1 ^ 2 = 2 by
      norm_num, div_eq_iff (ne_of_gt h2)]
    rw [mul_assoc, Real.mul_self_sqrt (by norm_num)]
    norm_num

/-- Claim C5 (amended): neither operation validates the uncertainties.
calculate_tension_sigma is the total formula abs(v1-v2)/sqrt(s1^2+s2^2),
sign-insensitive in the sigmas and raising nothing; weighted_mean raises only
ZeroDivisionError (not a validation error), and does so exactly when some
sigma equals 0 or the list of sigmas is empty -- a list containing only
negative sigmas is accepted silently. -/
theorem c5_no_sigma_validation (values sigmas : List ℝ) (v1 s1 v2 s2 : ℝ) :
    calculate_tension_sigma v1 s1 v2 s2
      = |v1 - v2| / Real.sqrt (s1 ^ 2 + s2 ^ 2) ∧
    weighted_mean_checked values sigmas
      = (if (0 : ℝ) ∈ sigmas ∨ sigmas = []
          then Except.error PyError.zeroDivisionError
          else Except.ok (weighted_mean values sigmas)) := by
  refine ⟨rfl, ?_⟩
  unfold weighted_mean_checked
  by_cases h0 : (0 : ℝ) ∈ sigmas
  · rw [if_pos h0, if_pos (Or.inl h0)]
  · rw [if_neg h0]
    by_cases hemp : sigmas = []
    · subst hemp
      simp
    · have hpos : 0 < (sigmas.map (fun s => 1 / s ^ 2)).sum := by
        apply List.sum_pos
        · intro x hx
          rcases List.mem_map.mp hx with ⟨s, hsmem, rfl⟩
          have hsne : s ≠ 0 := fun h => h0 (h ▸ hsmem)
          positivity
        · simpa using hemp
      rw [if_neg (ne_of_gt hpos), if_neg (by simp [h0, hemp])]

-- ===========================================================================
-- Claim C6
-- ===========================================================================

/-- Claim C6 counterexample: calling the angular-diameter-distance computation
with Omega_m = 1.2 (omega_lambda defaulted) silently computes a result: the
only check in calculate_angular_diameter_distance is the flatness constraint,
and the defaulted omega_lambda = 1 - 1.2 satisfies it exactly, so no error is
raised. -/
theorem c6_counterexample :
    calculate_angular_diameter_distance 0.5 67.36 1.2 none
      = Except.ok (calculate_hubble_distance 67.36 * 0.5 / (1 + 0.5)
          * (1 + 0.5 * 1.2 * 0.5)) := by
  unfold calculate_angular_diameter_distance
  rw [if_neg (by norm_num [Option.getD])]

/-- Claim C6 (amended): calculate_angular_diameter_distance validates only the
flat-universe constraint; with omega_lambda defaulted to 1 - omega_m the
constraint holds identically and the function silently computes for every
omega_m, including omega_m >= 1. The range check 0 < omega_m < 1 lives in the
separate helper validate_cosmology_parameters (not called by the distance
computation), which does reject omega_m >= 1 with a ValueError. -/
theorem c6_distance_no_omega_validation (z h0 omega_m : ℝ)
    (hom : 1 ≤ omega_m) (h40 : 40 < h0) (h100 : h0 < 100) :
    calculate_angular_diameter_distance z h0 omega_m none
      = Except.ok (calculate_hubble_distance h0 * z / (1 + z)
          * (1 + 0.5 * omega_m * z)) ∧
    validate_cosmology_parameters h0 omega_m (1 - omega_m) true
      = Except.error PyError.valueError := by
  constructor
  · unfold calculate_angular_diameter_distance
    rw [if_neg]
    simp only [Option.getD]
    rw [show omega_m + (1 - omega_m) - 1 = 0 by ring]
    norm_num
  · unfold validate_cosmology_parameters
    rw [if_neg (by simp [h40, h100]), if_pos]
    intro hcon
    exact absurd hcon.2 (not_lt.mpr hom)

/-- Witness for c6_distance_no_omega_validation at z = 0.5, h0 = 67.36,
omega_m = 1.2. -/
theorem c6_witness :
    ((1 : ℝ) ≤ 1.2 ∧ (40 : ℝ) < 67.36 ∧ (67.36 : ℝ) < 100) ∧
    (calculate_angular_diameter_distance 0.5 67.36 1.2 none
      = Except.ok (calculate_hubble_distance 67.36 * 0.5 / (1 + 0.5)
          * (1 + 0.5 * 1.2 * 0.5)) ∧
    validate_cosmology_parameters 67.36 1.2 (1 - 1.2) true
      = Except.error PyError.valueError) :=
  ⟨⟨by norm_num, by norm_num, by norm_num⟩,
    c6_distance_no_omega_validation 0.5 67.36 1.2 (by norm_num) (by norm_num)
      (by norm_num)⟩

-- ===========================================================================
-- Claim C7
-- ===========================================================================

lemma le_foldr_max (l : List ℝ) (x : ℝ) (hx : x ∈ l) : x ≤ l.foldr max 0 := by
  induction l with
  | nil => cases hx
  | cons a t ih =>
    rcases List.mem_cons.mp hx with rfl | hxt
    · exact le_max_left _ _
    · exact le_trans (ih hxt) (le_max_right _ _)

lemma foldr_max_mem (l : List ℝ) (hne : l ≠ []) (h0 : ∀ x ∈ l, 0 ≤ x) :
    l.foldr max 0 ∈ l := by
  induction l with
  | nil => exact absurd rfl hne
  | cons a t ih =>
    by_cases ht : t = []
    · subst ht
      have ha := h0 a (List.mem_cons_self a [])
      simp [max_eq_left ha]
    · have h02 : ∀ x ∈ t, 0 ≤ x := fun x hx => h0 x (List.mem_cons_of_mem a hx)
      have hmem := ih ht h02
      have hfold : (a :: t).foldr max 0 = max a (t.foldr max 0) := rfl
      rw [hfold]
      rcases le_total a (t.foldr max 0) with h | h
      · rw [max_eq_right h]
        exact List.mem_cons_of_mem a hmem
      · rw [max_eq_left h]
        exact List.mem_cons_self a t

/-- The EXCELLENT / GOOD / MARGINAL threshold chain, characterized by the
standard deviation alone. -/
lemma status_cases (sd : ℝ) :
    ((if sd < 0.003 then "EXCELLENT" else if sd < 0.005 then "GOOD"
        else "MARGINAL") = "EXCELLENT" ↔ sd < 0.003) ∧
    ((if sd < 0.003 then "EXCELLENT" else if sd < 0.005 then "GOOD"
        else "MARGINAL") = "GOOD" ↔ 0.003 ≤ sd ∧ sd < 0.005) ∧
    ((if sd < 0.003 then "EXCELLENT" else if sd < 0.005 then "GOOD"
        else "MARGINAL") = "MARGINAL" ↔ 0.005 ≤ sd) := by
  by_cases h1 : sd < 0.003
  · rw [if_pos h1]
    refine ⟨by simp [h1], ?_, ?_⟩
    · constructor
      · intro h
        exact absurd h (by decide)
      · rintro ⟨h, _⟩
        exact absurd h1 (not_lt.mpr h)
    · constructor
      · intro h
        exact absurd h (by decide)
      · intro h
        exact absurd h1 (not_lt.mpr (by linarith))
  · rw [if_neg h1]
    by_cases h2 : sd < 0.005
    · rw [if_pos h2]
      refine ⟨?_, ?_, ?_⟩
      · constructor
        · intro h
          exact absurd h (by decide)
        · intro h
          exact absurd h h1
      · simp [h2, not_lt.mp h1]
      · constructor
        · intro h
          exact absurd h (by decide)
        · intro h
          exact absurd h2 (not_lt.mpr h)
    · rw [if_neg h2]
      refine ⟨?_, ?_, ?_⟩
      · constructor
        · intro h
          exact absurd h (by decide)
        · intro h
          exact absurd h h1
      · constructor
        · intro h
          exact absurd h (by decide)
        · rintro ⟨_, h⟩
          exact absurd h h2
      · simp [not_lt.mp h2]

/-- Claim C7: check_cross_survey_consistency computes the mean, the population
standard deviation and the maximum absolute deviation from the mean of the
per-survey baselines, and returns status EXCELLENT exactly when std < 0.003,
GOOD exactly when 0.003 <= std < 0.005, and MARGINAL exactly otherwise. -/
theorem c7_consistency_classifier (l : List ℝ) (hne : l ≠ []) :
    (check_cross_survey_consistency l).mean_baseline = l.sum / l.length ∧
    (check_cross_survey_consistency l).std_baseline
      = Real.sqrt ((l.map (fun b =>
          (b - (check_cross_survey_consistency l).mean_baseline) ^ 2)).sum
            / l.length) ∧
    (∀ b ∈ l, |b - (check_cross_survey_consistency l).mean_baseline|
      ≤ (check_cross_survey_consistency l).max_difference) ∧
    (∃ b ∈ l, (check_cross_survey_consistency l).max_difference
      = |b - (check_cross_survey_consistency l).mean_baseline|) ∧
    ((check_cross_survey_consistency l).status = "EXCELLENT"
      ↔ (check_cross_survey_consistency l).std_baseline < 0.003) ∧
    ((check_cross_survey_consistency l).status = "GOOD"
      ↔ 0.003 ≤ (check_cross_survey_consistency l).std_baseline
        ∧ (check_cross_survey_consistency l).std_baseline < 0.005) ∧
    ((check_cross_survey_consistency l).status = "MARGINAL"
      ↔ 0.005 ≤ (check_cross_survey_consistency l).std_baseline) := by
  have hs := status_cases
    (Real.sqrt (listMean (l.map fun b => (b - listMean l) ^ 2)))
  simp only [check_cross_survey_consistency]
  refine ⟨rfl, ?_, ?_, ?_, hs.1, hs.2.1, hs.2.2⟩
  · simp only [listMean, List.length_map]
  · intro b hb
    exact le_foldr_max _ _ (List.mem_map.mpr ⟨b, hb, rfl⟩)
  · have hmm := foldr_max_mem (l.map fun b => |b - listMean l|)
      (by simpa using hne)
      (by
        intro x hx
        rcases List.mem_map.mp hx with ⟨b, hb, rfl⟩
        exact abs_nonneg _)
    rcases List.mem_map.mp hmm with ⟨b, hb, heq⟩
    exact ⟨b, hb, heq.symm⟩

/-- Witness for c7_consistency_classifier at the two-survey list
[0.01, 0.014]. -/
theorem c7_witness :
    ([(0.01 : ℝ), 0.014] ≠ ([] : List ℝ)) ∧
    ((check_cross_survey_consistency [(0.01 : ℝ), 0.014]).mean_baseline
      = [(0.01 : ℝ), 0.014].sum / [(0.01 : ℝ), 0.014].length ∧
    (check_cross_survey_consistency [(0.01 : ℝ), 0.014]).std_baseline
      = Real.sqrt (([(0.01 : ℝ), 0.014].map (fun b =>
          (b - (check_cross_survey_consistency
            [(0.01 : ℝ), 0.014]).mean_baseline) ^ 2)).sum
            / [(0.01 : ℝ), 0.014].length) ∧
    (∀ b ∈ [(0.01 : ℝ), 0.014],
      |b - (check_cross_survey_consistency [(0.01 : ℝ), 0.014]).mean_baseline|
      ≤ (check_cross_survey_consistency [(0.01 : ℝ), 0.014]).max_difference) ∧
    (∃ b ∈ [(0.01 : ℝ), 0.014],
      (check_cross_survey_consistency [(0.01 : ℝ), 0.014]).max_difference
      = |b - (check_cross_survey_consistency
          [(0.01 : ℝ), 0.014]).mean_baseline|) ∧
    ((check_cross_survey_consistency [(0.01 : ℝ), 0.014]).status = "EXCELLENT"
      ↔ (check_cross_survey_consistency [(0.01 : ℝ), 0.014]).std_baseline
        < 0.003) ∧
    ((check_cross_survey_consistency [(0.01 : ℝ), 0.014]).status = "GOOD"
      ↔ 0.003 ≤ (check_cross_survey_consistency [(0.01 : ℝ), 0.014]).std_baseline
        ∧ (check_cross_survey_consistency [(0.01 : ℝ), 0.014]).std_baseline
          < 0.005) ∧
    ((check_cross_survey_consistency [(0.01 : ℝ), 0.014]).status = "MARGINAL"
      ↔ 0.005 ≤ (check_cross_survey_consistency
          [(0.01 : ℝ), 0.014]).std_baseline)) :=
  ⟨by simp, c7_consistency_classifier [(0.01 : ℝ), 0.014] (by simp)⟩

-- ===========================================================================
-- Claim C8
-- ===========================================================================

/-- Claim C8 counterexample: with the single H0 measurement 67.36 ± 0.54
(N = 1), the consistency check of joint_fit_lambda_cdm raises
ZeroDivisionError from the unguarded division chi2 / dof with dof = N - 1 = 0;
the N = 1 case is not handled as an edge case. -/
theorem c8_counterexample :
    joint_fit_consistency_check [(67.36 : ℝ)] [(0.54 : ℝ)]
      = Except.error PyError.zeroDivisionError := by
  simp [joint_fit_consistency_check]

/-- Claim C8 (amended): for a single measurement with uncertainty s > 0 the
weighted combination does return that measurement with its own uncertainty,
and the trivial tension is 0; but the chi-squared consistency check divides by
dof = N - 1 = 0 unguarded, raising ZeroDivisionError instead of handling
N = 1 as an edge case. -/
theorem c8_single_measurement (v s : ℝ) (hs : 0 < s) :
    (weighted_mean [v] [s]).1 = v ∧
    (weighted_mean [v] [s]).2 = s ∧
    calculate_tension_sigma v s v s = 0 ∧
    joint_fit_consistency_check [v] [s]
      = Except.error PyError.zeroDivisionError := by
  have hsne : s ≠ 0 := ne_of_gt hs
  have hw : (1 : ℝ) / s ^ 2 ≠ 0 := by positivity
  refine ⟨?_, ?_, ?_, ?_⟩
  · simp only [weighted_mean, List.map_cons, List.map_nil, List.zip_cons_cons,
      List.zip_nil_right, List.sum_cons, List.sum_nil]
    rw [add_zero, add_zero, mul_div_cancel_right₀ _ hw]
  · simp only [weighted_mean, List.map_cons, List.map_nil, List.sum_cons,
      List.sum_nil]
    rw [add_zero, show (1 : ℝ) / s ^ 2 = (1 / s) ^ 2 by rw [div_pow, one_pow],
      Real.sqrt_sq (by positivity), one_div_one_div]
  · simp [calculate_tension_sigma]
  · simp [joint_fit_consistency_check]

/-- Witness for c8_single_measurement at v = 1, s = 2. -/
theorem c8_witness :
    (0 : ℝ) < 2 ∧
    ((weighted_mean [(1 : ℝ)] [(2 : ℝ)]).1 = 1 ∧
    (weighted_mean [(1 : ℝ)] [(2 : ℝ)]).2 = 2 ∧
    calculate_tension_sigma 1 2 1 2 = 0 ∧
    joint_fit_consistency_check [(1 : ℝ)] [(2 : ℝ)]
      = Except.error PyError.zeroDivisionError) :=
  ⟨by norm_num, c8_single_measurement 1 2 (by norm_num)⟩

-- ===========================================================================
-- Claim C9
-- ===========================================================================

lemma apply_resolution_schedule_go_spec (table : List (ℤ × ℝ))
    (schedule : List ℤ) :
    ∀ current : ℝ,
      (apply_resolution_schedule_go table current schedule).2.2
        = current + (schedule.map (fun r => (table.lookup r).getD 0)).sum ∧
      (apply_resolution_schedule_go table current schedule).1.length
        = schedule.length ∧
      (apply_resolution_schedule_go table current schedule).2.1
        = schedule.map (fun r => (table.lookup r).getD 0) ∧
      (current ::
          (apply_resolution_schedule_go table current schedule).1).getLast?
        = some (apply_resolution_schedule_go table current schedule).2.2 := by
  induction schedule with
  | nil =>
    intro current
    simp [apply_resolution_schedule_go]
  | cons r rest ih =>
    intro current
    obtain ⟨h1, h2, h3, h4⟩ := ih (current + (table.lookup r).getD 0)
    refine ⟨?_, ?_, ?_, ?_⟩
    · simp only [apply_resolution_schedule_go, List.map_cons, List.sum_cons]
      rw [h1]
      ring
    · simp only [apply_resolution_schedule_go, List.length_cons]
      rw [h2]
    · simp only [apply_resolution_schedule_go, List.map_cons]
      rw [h3]
    · simp only [apply_resolution_schedule_go]
      rw [List.getLast?_cons_cons]
      exact h4

/-- Claim C9: apply_resolution_schedule records per-step corrections equal to
the table entry for the resolution when present and 0.0 when absent (with the
leading 0.0 for the initial state); final_value equals initial_value plus the
sum of the recorded corrections; total_correction equals final_value minus
initial_value; values_by_resolution has exactly len(schedule) + 1 entries,
starting at initial_value and ending at final_value. -/
theorem c9_apply_resolution_schedule (initial_value : ℝ)
    (resolution_schedule : List ℤ) (correction_per_resolution : List (ℤ × ℝ)) :
    (apply_resolution_schedule initial_value resolution_schedule
        correction_per_resolution).corrections_by_resolution
      = 0 :: resolution_schedule.map
          (fun r => (correction_per_resolution.lookup r).getD 0) ∧
    (apply_resolution_schedule initial_value resolution_schedule
        correction_per_resolution).final_value
      = initial_value + (resolution_schedule.map
          (fun r => (correction_per_resolution.lookup r).getD 0)).sum ∧
    (apply_resolution_schedule initial_value resolution_schedule
        correction_per_resolution).final_value
      = initial_value + (apply_resolution_schedule initial_value
          resolution_schedule
          correction_per_resolution).corrections_by_resolution.sum ∧
    (apply_resolution_schedule initial_value resolution_schedule
        correction_per_resolution).total_correction
      = (apply_resolution_schedule initial_value resolution_schedule
          correction_per_resolution).final_value - initial_value ∧
    (apply_resolution_schedule initial_value resolution_schedule
        correction_per_resolution).values_by_resolution.length
      = resolution_schedule.length + 1 ∧
    (apply_resolution_schedule initial_value resolution_schedule
        correction_per_resolution).values_by_resolution.head?
      = some initial_value ∧
    (apply_resolution_schedule initial_value resolution_schedule
        correction_per_resolution).values_by_resolution.getLast?
      = some (apply_resolution_schedule initial_value resolution_schedule
          correction_per_resolution).final_value := by
  obtain ⟨h1, h2, h3, h4⟩ :=
    apply_resolution_schedule_go_spec correction_per_resolution
      resolution_schedule initial_value
  refine ⟨?_, ?_, ?_, ?_, ?_, ?_, ?_⟩ <;>
    simp only [apply_resolution_schedule]
  · rw [h3]
  · exact h1
  · rw [h3, List.sum_cons, zero_add, h1]
  · simp [h2]
  · rfl
  · exact h4

-- ===========================================================================
-- Claim C10
-- ===========================================================================

/-- Claim C10: scale_factor_to_redshift raises ValueError exactly when
a <= 0 or a > 1, and otherwise returns 1/a - 1; for every z >= 0,
redshift_to_scale_factor(z) = 1/(1+z) lies in (0, 1] and
scale_factor_to_redshift(redshift_to_scale_factor(z)) recovers z exactly. -/
theorem c10_scale_factor_roundtrip (a z : ℝ) (hz : 0 ≤ z) :
    (scale_factor_to_redshift a = Except.error PyError.valueError
      ↔ (a ≤ 0 ∨ 1 < a)) ∧
    ((0 < a ∧ a ≤ 1) → scale_factor_to_redshift a = Except.ok (1 / a - 1)) ∧
    0 < redshift_to_scale_factor z ∧
    redshift_to_scale_factor z ≤ 1 ∧
    scale_factor_to_redshift (redshift_to_scale_factor z) = Except.ok z := by
  have h1 : (0 : ℝ) < 1 + z := by linarith
  refine ⟨?_, ?_, ?_, ?_, ?_⟩
  · unfold scale_factor_to_redshift
    by_cases h : a ≤ 0 ∨ 1 < a
    · simp [h]
    · simp [h]
  · rintro ⟨hpos, hle⟩
    unfold scale_factor_to_redshift
    rw [if_neg (by push_neg; exact ⟨hpos, hle⟩)]
  · exact one_div_pos.mpr h1
  · unfold redshift_to_scale_factor
    rw [div_le_one h1]
    linarith
  · unfold redshift_to_scale_factor scale_factor_to_redshift
    rw [if_neg (by
      push_neg
      exact ⟨one_div_pos.mpr h1, by rw [div_le_one h1]; linarith⟩)]
    rw [one_div_one_div]
    congr 1
    ring

/-- Witness for c10_scale_factor_roundtrip at a = 1/2, z = 3. -/
theorem c10_witness :
    (0 : ℝ) ≤ 3 ∧
    ((scale_factor_to_redshift (1 / 2) = Except.error PyError.valueError
      ↔ ((1 : ℝ) / 2 ≤ 0 ∨ 1 < (1 : ℝ) / 2)) ∧
    (((0 : ℝ) < 1 / 2 ∧ (1 : ℝ) / 2 ≤ 1) →
      scale_factor_to_redshift (1 / 2) = Except.ok (1 / (1 / 2) - 1)) ∧
    0 < redshift_to_scale_factor 3 ∧
    redshift_to_scale_factor 3 ≤ 1 ∧
    scale_factor_to_redshift (redshift_to_scale_factor 3) = Except.ok 3) :=
  ⟨by norm_num, c10_scale_factor_roundtrip (1 / 2) 3 (by norm_num)⟩
